import Mathlib

/-!
Shallow embedding of the auto-capture core of `src/components/CaptureScreen.tsx`
(SnapEyes). The component keeps its auto-capture bookkeeping in React state and
refs; we model that bookkeeping as one record `CoreState`, the post-await result
handling of `analyzeFrame` as a pure state transformer, the countdown `useEffect`
as a reaction that re-runs exactly when its dependencies change, and the pending
`setTimeout` handles as a list of (absolute deadline, kind) pairs fired in
deadline order by a fueled executor (the single-threaded event loop).
-/

set_option maxRecDepth 8192

namespace SnapEyes

/-- The `DetectionStatus` union type of CaptureScreen.tsx (line 32). -/
inductive DetectionStatus
  | idle
  | tracking
  | locked
  deriving DecidableEq, Repr

/-- A normalized bounding box, as in `IrisDetectionResult.box` (coordinates are
fractions of the frame, modelled as rationals). -/
structure Box where
  xMin : ℚ
  yMin : ℚ
  xMax : ℚ
  yMax : ℚ
  deriving DecidableEq, Repr

/-- The outcome of one `findEyeInFrame` call as `analyzeFrame` observes it:
a successful response carrying a box (the `result.success && result.box` branch),
a response without a usable box (the `else` branch), or a thrown error
(the `catch` branch). -/
inductive DetectionOutcome
  | ok (box : Box)
  | noBox
  | error
  deriving DecidableEq, Repr

/-- The kinds of pending timeouts the component keeps handles to:
`steadyTimeoutRef` (one 500 ms steadiness timer) and the two countdown
timeouts `t1`, `t2` stored in `countdownTimeoutsRef`. -/
inductive TimerKind
  | steady
  | cd1
  | cd2
  deriving DecidableEq, Repr

/-- Observable effects of `handleCapture` (CaptureScreen.tsx lines 186-211). -/
inductive CaptureEffect
  | initAudio
  | drawImage (w h : ℕ)
  | callbackInvoked (w h : ℕ) (quality : ℚ)
  | streamStopped
  deriving DecidableEq, Repr

/-- The auto-capture bookkeeping of the component: React state
(`autoCaptureEnabled`, `detectionStatus`, `detectionResult`, `zoom`,
`countdown`) together with the refs (`steadyTimeoutRef` and
`countdownTimeoutsRef` are folded into `timers` as absolute-deadline entries,
`countdownInProgress`, `isAnalyzingRef`), an event log for beeps and captures,
and the environment facts `analyzeFrame`/`handleCapture` read (refs present,
`cameraReady`, 2d context available, video dimensions). -/
structure CoreState where
  enabled : Bool
  status : DetectionStatus
  result : Option Box
  zoom : ℚ
  countdown : Option ℕ
  timers : List (ℕ × TimerKind)
  inProgress : Bool
  isAnalyzing : Bool
  beeps : List (ℕ × ℕ × ℕ)
  capLog : List (ℕ × List CaptureEffect)
  refsPresent : Bool
  cameraReady : Bool
  ctxOk : Bool
  videoW : ℕ
  videoH : ℕ
  deriving DecidableEq, Repr

/-- `clearTimeout(steadyTimeoutRef.current)`: drop the pending steadiness
timer, keep the countdown timers. -/
def clearSteady (ts : List (ℕ × TimerKind)) : List (ℕ × TimerKind) :=
  ts.filter fun e => e.2 ≠ TimerKind.steady

/-- `clearCountdownTimeouts` (lines 259-262): drop the pending countdown
timeouts, keep the steadiness timer. -/
def clearCountdownTimeouts (ts : List (ℕ × TimerKind)) : List (ℕ × TimerKind) :=
  ts.filter fun e => e.2 = TimerKind.steady

/-- Effect trace of `handleCapture` (lines 186-211): always initializes the
audio context; when the element refs exist and the camera is ready and a 2d
context is available, draws the full-resolution frame (`videoWidth` by
`videoHeight`), encodes it as JPEG at quality 0.95, hands it to the
`onImageCaptured` callback, then calls `stopStream` which stops every track of
the live stream. -/
def handleCapture (refsPresent cameraReady ctxOk : Bool) (videoW videoH : ℕ) :
    List CaptureEffect :=
  CaptureEffect.initAudio ::
    (if refsPresent && cameraReady then
      (if ctxOk then
        [CaptureEffect.drawImage videoW videoH,
         CaptureEffect.callbackInvoked videoW videoH (19/20),
         CaptureEffect.streamStopped]
      else [])
    else [])

/-- Body of the countdown `useEffect` (lines 357-382): if the state is
`locked`, the feature enabled and no countdown is in progress, start a
countdown (set the guard, beep 440 Hz / 100 ms, display `2`, schedule `t1`
at +1000 ms and `t2` at +2000 ms); else if the state left `locked` while a
countdown was in progress, cancel the countdown timeouts, clear the display
and the guard; otherwise do nothing. -/
def countdownEffectBody (now : ℕ) (s : CoreState) : CoreState :=
  if s.status = DetectionStatus.locked ∧ s.enabled = true ∧ s.inProgress = false then
    { s with inProgress := true,
             beeps := s.beeps ++ [(now, 440, 100)],
             countdown := some 2,
             timers := s.timers ++ [(now + 1000, TimerKind.cd1), (now + 2000, TimerKind.cd2)] }
  else if s.status ≠ DetectionStatus.locked ∧ s.inProgress = true then
    { s with timers := clearCountdownTimeouts s.timers,
             countdown := none,
             inProgress := false }
  else s

/-- Cleanup of the countdown effect (lines 384-386): clears the countdown
timeouts. React runs it before the effect body re-runs. -/
def countdownEffectCleanup (s : CoreState) : CoreState :=
  { s with timers := clearCountdownTimeouts s.timers }

/-- A re-run of the countdown effect: cleanup, then the body. React re-runs
the effect exactly when one of its dependencies (here `detectionStatus` or
`autoCaptureEnabled`) changed. -/
def countdownEffectRerun (now : ℕ) (s : CoreState) : CoreState :=
  countdownEffectBody now (countdownEffectCleanup s)

/-- The desired on-screen box width fraction (line 320). -/
def targetBoxWidth : ℚ := 2/5

/-- The target zoom computed on a successful detection (line 321):
`Math.min(Math.max(1, targetBoxWidth / boxWidthNormalized), 4)`. -/
def targetZoom (w : ℚ) : ℚ :=
  min (max 1 (targetBoxWidth / w)) 4

/-- The state updates `analyzeFrame` performs once the detection call has
resolved (lines 312-343): the success-with-box branch caches the result, moves
a non-locked state to `tracking`, smooths the zoom toward the target, clears
the steadiness timer and (when no countdown is in progress) restarts it for
500 ms; the no-usable-box branch clears the steadiness timer, drops to `idle`,
clears the cached result and smooths the zoom toward 1; the catch branch drops
to `idle` and sets the zoom to 1. -/
def analyzeFrameResult (now : ℕ) (r : DetectionOutcome) (s : CoreState) : CoreState :=
  match r with
  | DetectionOutcome.ok box =>
      let s1 := { s with result := some box }
      let s2 := if s1.status ≠ DetectionStatus.locked then
                  { s1 with status := DetectionStatus.tracking }
                else s1
      let newZoom := targetZoom (box.xMax - box.xMin)
      let s3 := { s2 with zoom := s2.zoom + (newZoom - s2.zoom) * (1/5) }
      let s4 := { s3 with timers := clearSteady s3.timers }
      if s4.inProgress = false then
        { s4 with timers := s4.timers ++ [(now + 500, TimerKind.steady)] }
      else s4
  | DetectionOutcome.noBox =>
      { s with timers := clearSteady s.timers,
               status := DetectionStatus.idle,
               result := none,
               zoom := s.zoom + (1 - s.zoom) * (1/5) }
  | DetectionOutcome.error =>
      { s with status := DetectionStatus.idle, zoom := 1 }

/-- One full application of a detection outcome: the `analyzeFrame` result
handling, followed by a re-run of the countdown effect exactly when
`detectionStatus` changed (its only dependency these updates can change). -/
def applyDetection (now : ℕ) (r : DetectionOutcome) (s : CoreState) : CoreState :=
  let s' := analyzeFrameResult now r s
  if s'.status ≠ s.status then countdownEffectRerun now s' else s'

/-- The whole `analyzeFrame` sampling step (lines 290-344), including the
single-flight guard: the tick returns immediately (no detection call, no state
change) when a call is already in flight, a ref is missing or the feature is
disabled; otherwise it sets the in-flight flag, performs the call (unless the
2d context is unavailable) and clears the flag in the `finally` block. The
returned boolean records whether a detection call was performed. -/
def analyzeFrame (now : ℕ) (refsPresent ctxOk : Bool) (r : DetectionOutcome)
    (s : CoreState) : CoreState × Bool :=
  if s.isAnalyzing = true ∨ refsPresent = false ∨ s.enabled = false then (s, false)
  else
    let s1 := { s with isAnalyzing := true }
    if ctxOk = false then ({ s1 with isAnalyzing := false }, false)
    else
      let s2 := applyDetection now r s1
      ({ s2 with isAnalyzing := false }, true)

/-- Firing a pending timeout at time `now`: the steadiness timer sets the
state to `locked` (lines 326-328) and, when that changed the state, the
countdown effect re-runs; `t1` shows `1` and beeps (lines 364-367); `t2`
clears the display, beeps 880 Hz / 200 ms, invokes `handleCapture` and clears
the in-progress guard (lines 369-374). -/
def fireTimer (now : ℕ) (k : TimerKind) (s : CoreState) : CoreState :=
  match k with
  | TimerKind.steady =>
      let s' := { s with status := DetectionStatus.locked }
      if s.status ≠ DetectionStatus.locked then countdownEffectRerun now s' else s'
  | TimerKind.cd1 =>
      { s with countdown := some 1, beeps := s.beeps ++ [(now, 440, 100)] }
  | TimerKind.cd2 =>
      { s with countdown := none,
               beeps := s.beeps ++ [(now, 880, 200)],
               capLog := s.capLog ++
                 [(now, handleCapture s.refsPresent s.cameraReady s.ctxOk s.videoW s.videoH)],
               inProgress := false }

/-- Pick the pending timeout that the event loop fires next when time advances
to `t`: the due entry (deadline at most `t`) with the least deadline,
registration order breaking ties; also returns the remaining entries. -/
def extractDue (t : ℕ) : List (ℕ × TimerKind) →
    Option ((ℕ × TimerKind) × List (ℕ × TimerKind))
  | [] => none
  | e :: es =>
      match extractDue t es with
      | none => if e.1 ≤ t then some (e, es) else none
      | some (b, rest) =>
          if e.1 ≤ t ∧ e.1 ≤ b.1 then some (e, es) else some (b, e :: rest)

/-- Advance the event loop to time `t`: repeatedly fire the earliest due
timeout (each firing happens at its own deadline). `fuel` bounds the number of
firings processed; every theorem below computes the exact resulting state, so
its fuel is demonstrably sufficient. -/
def runTimers : ℕ → ℕ → CoreState → CoreState
  | 0, _, s => s
  | fuel + 1, t, s =>
      match extractDue t s.timers with
      | none => s
      | some (e, rest) => runTimers fuel t (fireTimer e.1 e.2 { s with timers := rest })

/-- Run a schedule of detection outcomes: before each outcome is applied at
its time `t`, every timeout due by `t` fires; finally the loop advances to the
horizon. The outcomes are applied with `applyDetection` (zero-latency
resolution of the detection call). -/
def runSchedule (fuel : ℕ) : List (ℕ × DetectionOutcome) → ℕ → CoreState → CoreState
  | [], horizon, s => runTimers fuel horizon s
  | (t, r) :: rest, horizon, s =>
      runSchedule fuel rest horizon (applyDetection t r (runTimers fuel t s))

/-- `resetAutoCaptureState` (lines 264-275): cancel the analysis interval, the
steadiness timer and the countdown timeouts, clear the in-progress guard, and
reset status, cached result, countdown display and zoom. -/
def resetAutoCaptureState (s : CoreState) : CoreState :=
  { s with timers := [],
           inProgress := false,
           status := DetectionStatus.idle,
           result := none,
           countdown := none,
           zoom := 1 }

/-- `handleToggleAutoCapture` (lines 277-288): toggling off runs
`resetAutoCaptureState`; toggling on resets the status to `idle`. In either
case `autoCaptureEnabled` changed, so the countdown effect re-runs. -/
def handleToggleAutoCapture (now : ℕ) (s : CoreState) : CoreState :=
  let s' := if s.enabled = true then
              resetAutoCaptureState { s with enabled := false }
            else
              { s with enabled := true, status := DetectionStatus.idle }
  countdownEffectRerun now s'

/-- The dimensions `analyzeFrame` gives the analysis canvas (lines 297-298):
the width is set to 640 and the height to `videoHeight / videoWidth * 640`. -/
def analysisCanvas (videoW videoH : ℚ) : ℚ × ℚ :=
  (640, videoH / videoW * 640)

/-- The JPEG quality of the analysis frame (line 307). -/
def analysisJpegQuality : ℚ := 4/5

/-- A clean enabled state: feature on, no detection yet, zoom 1, no pending
timeouts, camera and refs available, a 1920 by 1080 video. -/
def initialState : CoreState :=
  { enabled := true,
    status := DetectionStatus.idle,
    result := none,
    zoom := 1,
    countdown := none,
    timers := [],
    inProgress := false,
    isAnalyzing := false,
    beeps := [],
    capLog := [],
    refsPresent := true,
    cameraReady := true,
    ctxOk := true,
    videoW := 1920,
    videoH := 1080 }

/-- A sample box of width 2/5. -/
def box1 : Box := { xMin := 3/10, yMin := 3/10, xMax := 7/10, yMax := 7/10 }

/-- The pending steadiness-timer entries of a state (the content of
`steadyTimeoutRef`). -/
def pendingSteady (s : CoreState) : List (ℕ × TimerKind) :=
  s.timers.filter fun e => e.2 = TimerKind.steady

/-- The pending countdown-timeout entries of a state (the content of
`countdownTimeoutsRef`). -/
def pendingCountdown (s : CoreState) : List (ℕ × TimerKind) :=
  s.timers.filter fun e => e.2 ≠ TimerKind.steady

/-- A tracking state with a steadiness timer pending for `t = 500 ms`. -/
def cexPendingSteadyState : CoreState :=
  { initialState with status := DetectionStatus.tracking,
                      timers := [(500, TimerKind.steady)] }

/-- A locked state with a steadiness timer pending for `t = 900 ms`. -/
def cexLockedSteadyState : CoreState :=
  { initialState with status := DetectionStatus.locked,
                      timers := [(900, TimerKind.steady)] }

/-- A tracking state with zoom 3 and a steadiness timer pending. -/
def cexZoomedState : CoreState :=
  { initialState with zoom := 3,
                      status := DetectionStatus.tracking,
                      timers := [(900, TimerKind.steady)] }

/-- A tracking state about to be promoted by the steadiness timer. -/
def trackingState : CoreState :=
  { initialState with status := DetectionStatus.tracking }

/-! ### Helper lemmas -/

theorem clearCd_clearSteady (l : List (ℕ × TimerKind)) :
    clearCountdownTimeouts (clearSteady l) = [] := by
  induction l with
  | nil => rfl
  | cons e es ih =>
      by_cases h : e.2 = TimerKind.steady <;>
        simpa [clearSteady, clearCountdownTimeouts, h] using ih

theorem clearCd_idem (l : List (ℕ × TimerKind)) :
    clearCountdownTimeouts (clearCountdownTimeouts l) = clearCountdownTimeouts l := by
  induction l with
  | nil => rfl
  | cons e es ih =>
      by_cases h : e.2 = TimerKind.steady <;>
        simpa [clearCountdownTimeouts, h] using ih

theorem extractDue_nil (t : ℕ) : extractDue t [] = none := rfl

theorem extractDue_singleton_due (t : ℕ) (e : ℕ × TimerKind) (h : e.1 ≤ t) :
    extractDue t [e] = some (e, []) := by
  simp [extractDue, h]

theorem extractDue_singleton_not (t : ℕ) (e : ℕ × TimerKind) (h : ¬ e.1 ≤ t) :
    extractDue t [e] = none := by
  simp [extractDue, h]

theorem extractDue_cons_due_restNone (t : ℕ) (e : ℕ × TimerKind)
    (es : List (ℕ × TimerKind)) (hrest : extractDue t es = none) (h : e.1 ≤ t) :
    extractDue t (e :: es) = some (e, es) := by
  simp [extractDue, hrest, h]

theorem extractDue_cons_not_restNone (t : ℕ) (e : ℕ × TimerKind)
    (es : List (ℕ × TimerKind)) (hrest : extractDue t es = none) (h : ¬ e.1 ≤ t) :
    extractDue t (e :: es) = none := by
  simp [extractDue, hrest, h]

theorem extractDue_cons_due_min (t : ℕ) (e b : ℕ × TimerKind)
    (es rest : List (ℕ × TimerKind)) (hrest : extractDue t es = some (b, rest))
    (h1 : e.1 ≤ t) (h2 : e.1 ≤ b.1) :
    extractDue t (e :: es) = some (e, es) := by
  simp [extractDue, hrest, h1, h2]

theorem runTimers_nil (fuel t : ℕ) (s : CoreState) (h : s.timers = []) :
    runTimers fuel t s = s := by
  cases fuel <;> simp [runTimers, h, extractDue]

theorem runTimers_of_none (fuel t : ℕ) (s : CoreState)
    (h : extractDue t s.timers = none) : runTimers (fuel + 1) t s = s := by
  simp [runTimers, h]

theorem runTimers_of_some (fuel t : ℕ) (s : CoreState) (e : ℕ × TimerKind)
    (rest : List (ℕ × TimerKind)) (h : extractDue t s.timers = some (e, rest)) :
    runTimers (fuel + 1) t s = runTimers fuel t (fireTimer e.1 e.2 { s with timers := rest }) := by
  simp [runTimers, h]

theorem targetZoom_ge_one (w : ℚ) : 1 ≤ targetZoom w := by
  unfold targetZoom
  exact le_min (le_max_left _ _) (by norm_num)

theorem targetZoom_le_four (w : ℚ) : targetZoom w ≤ 4 :=
  min_le_right _ _

/-- The countdown-effect re-run never changes the zoom value. -/
theorem countdownEffectRerun_zoom (now : ℕ) (s : CoreState) :
    (countdownEffectRerun now s).zoom = s.zoom := by
  unfold countdownEffectRerun countdownEffectBody countdownEffectCleanup
  split_ifs <;> rfl

/-- The zoom value after a full detection application is the one computed in
`analyzeFrameResult` (the countdown effect does not touch zoom). -/
theorem applyDetection_zoom (now : ℕ) (r : DetectionOutcome) (s : CoreState) :
    (applyDetection now r s).zoom = (analyzeFrameResult now r s).zoom := by
  by_cases h : (analyzeFrameResult now r s).status ≠ s.status
  · simp [applyDetection, h, countdownEffectRerun_zoom]
  · simp [applyDetection, h]

/-- The zoom smoothing performed on a successful detection. -/
theorem analyzeFrameResult_ok_zoom (now : ℕ) (b : Box) (s : CoreState) :
    (analyzeFrameResult now (DetectionOutcome.ok b) s).zoom =
      s.zoom + (targetZoom (b.xMax - b.xMin) - s.zoom) * (1/5) := by
  simp only [analyzeFrameResult]
  split_ifs <;> rfl

/-- The zoom smoothing performed on a detection without usable box. -/
theorem analyzeFrameResult_noBox_zoom (now : ℕ) (s : CoreState) :
    (analyzeFrameResult now DetectionOutcome.noBox s).zoom =
      s.zoom + (1 - s.zoom) * (1/5) := rfl

/-- The zoom reset performed on a thrown detection error. -/
theorem analyzeFrameResult_error_zoom (now : ℕ) (s : CoreState) :
    (analyzeFrameResult now DetectionOutcome.error s).zoom = 1 := rfl

/-- One detection application keeps the zoom inside `[1, 4]`. -/
theorem applyDetection_zoom_bounds (now : ℕ) (r : DetectionOutcome) (s : CoreState)
    (h1 : 1 ≤ s.zoom) (h2 : s.zoom ≤ 4) :
    1 ≤ (applyDetection now r s).zoom ∧ (applyDetection now r s).zoom ≤ 4 := by
  rw [applyDetection_zoom]
  cases r with
  | ok b =>
      have hz1 := targetZoom_ge_one (b.xMax - b.xMin)
      have hz2 := targetZoom_le_four (b.xMax - b.xMin)
      rw [analyzeFrameResult_ok_zoom]
      constructor <;> linarith
  | noBox =>
      rw [analyzeFrameResult_noBox_zoom]
      constructor <;> linarith
  | error =>
      rw [analyzeFrameResult_error_zoom]
      norm_num

/-- Folding detection applications over any event list keeps zoom in `[1, 4]`. -/
theorem foldl_zoom_bounds (evs : List (ℕ × DetectionOutcome)) (s : CoreState)
    (h1 : 1 ≤ s.zoom) (h2 : s.zoom ≤ 4) :
    1 ≤ (evs.foldl (fun a e => applyDetection e.1 e.2 a) s).zoom ∧
      (evs.foldl (fun a e => applyDetection e.1 e.2 a) s).zoom ≤ 4 := by
  induction evs generalizing s with
  | nil => exact ⟨h1, h2⟩
  | cons e es ih =>
      have hstep := applyDetection_zoom_bounds e.1 e.2 s h1 h2
      simpa using ih (applyDetection e.1 e.2 s) hstep.1 hstep.2

/-- Entering `locked` through the steadiness timer at `t0`, from a tracking
state with the feature enabled, no countdown in progress and no other pending
timeout, starts the countdown: guard set, tone A, display `2`, `t1` scheduled
at `t0 + 1000` and `t2` at `t0 + 2000`. -/
theorem fireSteady_start (t0 : ℕ) (s : CoreState) (h1 : s.status = DetectionStatus.tracking)
    (h2 : s.enabled = true) (h3 : s.inProgress = false) (h4 : s.timers = []) :
    fireTimer t0 TimerKind.steady s =
      { s with status := DetectionStatus.locked,
               inProgress := true,
               beeps := s.beeps ++ [(t0, 440, 100)],
               countdown := some 2,
               timers := [(t0 + 1000, TimerKind.cd1), (t0 + 2000, TimerKind.cd2)] } := by
  obtain ⟨en, st, res, z, cd, tm, ip, ia, bps, cl, rp, cr, cx, vw, vh⟩ := s
  subst h1; subst h2; subst h3; subst h4
  rfl

/-- With only the two countdown timeouts pending, advancing the loop to any
instant strictly before `t1` is due fires nothing. -/
theorem runTimers_cdPair_before (t0 k : ℕ) (s : CoreState) (hk : k < 1000)
    (ht : s.timers = [(t0 + 1000, TimerKind.cd1), (t0 + 2000, TimerKind.cd2)]) :
    runTimers 5 (t0 + k) s = s := by
  have he : extractDue (t0 + k) s.timers = none := by
    rw [ht]
    exact extractDue_cons_not_restNone _ _ _
      (extractDue_singleton_not _ _ (by omega)) (by omega)
  exact runTimers_of_none 4 _ _ he

/-- With only the two countdown timeouts pending, advancing the loop to an
instant in `[t0 + 1000, t0 + 2000)` fires exactly `t1`. -/
theorem runTimers_cdPair_mid (t0 k : ℕ) (s : CoreState) (h1k : 1000 ≤ k) (hk : k < 2000)
    (ht : s.timers = [(t0 + 1000, TimerKind.cd1), (t0 + 2000, TimerKind.cd2)]) :
    runTimers 5 (t0 + k) s =
      fireTimer (t0 + 1000) TimerKind.cd1 { s with timers := [(t0 + 2000, TimerKind.cd2)] } := by
  have he1 : extractDue (t0 + k) s.timers =
      some ((t0 + 1000, TimerKind.cd1), [(t0 + 2000, TimerKind.cd2)]) := by
    rw [ht]
    exact extractDue_cons_due_restNone _ _ _
      (extractDue_singleton_not _ _ (by omega)) (by omega)
  have he2 : extractDue (t0 + k) ([(t0 + 2000, TimerKind.cd2)] : List (ℕ × TimerKind)) = none :=
    extractDue_singleton_not _ _ (by omega)
  calc runTimers 5 (t0 + k) s
      = runTimers 4 (t0 + k)
          (fireTimer (t0 + 1000) TimerKind.cd1 { s with timers := [(t0 + 2000, TimerKind.cd2)] }) :=
        runTimers_of_some 4 _ _ _ _ he1
    _ = fireTimer (t0 + 1000) TimerKind.cd1 { s with timers := [(t0 + 2000, TimerKind.cd2)] } :=
        runTimers_of_none 3 _ _ he2

/-- With only the two countdown timeouts pending, advancing the loop to
`t0 + 2000` fires `t1` at its deadline and then `t2` at its deadline. -/
theorem runTimers_cdPair_end (t0 : ℕ) (s : CoreState)
    (ht : s.timers = [(t0 + 1000, TimerKind.cd1), (t0 + 2000, TimerKind.cd2)]) :
    runTimers 5 (t0 + 2000) s =
      fireTimer (t0 + 2000) TimerKind.cd2
        { (fireTimer (t0 + 1000) TimerKind.cd1 { s with timers := [(t0 + 2000, TimerKind.cd2)] })
            with timers := [] } := by
  have he1 : extractDue (t0 + 2000) s.timers =
      some ((t0 + 1000, TimerKind.cd1), [(t0 + 2000, TimerKind.cd2)]) := by
    rw [ht]
    exact extractDue_cons_due_min _ _ _ _ _
      (extractDue_singleton_due _ _ (by omega)) (by omega) (by omega)
  have he2 : extractDue (t0 + 2000) ([(t0 + 2000, TimerKind.cd2)] : List (ℕ × TimerKind)) =
      some ((t0 + 2000, TimerKind.cd2), []) :=
    extractDue_singleton_due _ _ (by omega)
  calc runTimers 5 (t0 + 2000) s
      = runTimers 4 (t0 + 2000)
          (fireTimer (t0 + 1000) TimerKind.cd1 { s with timers := [(t0 + 2000, TimerKind.cd2)] }) :=
        runTimers_of_some 4 _ _ _ _ he1
    _ = runTimers 3 (t0 + 2000)
          (fireTimer (t0 + 2000) TimerKind.cd2
            { (fireTimer (t0 + 1000) TimerKind.cd1
                { s with timers := [(t0 + 2000, TimerKind.cd2)] }) with timers := [] }) :=
        runTimers_of_some 3 _ _ _ _ he2
    _ = fireTimer (t0 + 2000) TimerKind.cd2
          { (fireTimer (t0 + 1000) TimerKind.cd1
              { s with timers := [(t0 + 2000, TimerKind.cd2)] }) with timers := [] } :=
        runTimers_nil 3 _ _ rfl

/-! ### Claim theorems -/

/-- C1, counterexample: with a steadiness timer pending for `t = 500`, a
successful detection at `t = 300` does not leave the pending timer running; it
clears it and schedules a fresh one for `t = 800`. -/
theorem C1_counterexample :
    (applyDetection 300 (DetectionOutcome.ok box1) cexPendingSteadyState).timers =
        [(800, TimerKind.steady)] ∧
      (500, TimerKind.steady) ∉
        (applyDetection 300 (DetectionOutcome.ok box1) cexPendingSteadyState).timers := by
  constructor
  · rfl
  · decide

/-- C1, amended: on every successful detection the pending steadiness timer is
cleared and, exactly when no countdown is in progress, a fresh 500 ms one is
started; because the sampling period (750 ms) exceeds the dwell (500 ms), a
run of successful detections at `t = 0, 750, 1500` still locks at `t = 500`
(the timer set at `t = 0` fires before the next tick) and captures at
`t = 2500`. -/
theorem C1_steady_timer_restart :
    (∀ (now : ℕ) (b : Box) (s : CoreState),
        (analyzeFrameResult now (DetectionOutcome.ok b) s).timers =
          (if s.inProgress = true then clearSteady s.timers
           else clearSteady s.timers ++ [(now + 500, TimerKind.steady)])) ∧
      (runSchedule 9 [(0, DetectionOutcome.ok box1)] 499 initialState).status =
        DetectionStatus.tracking ∧
      (runSchedule 9 [(0, DetectionOutcome.ok box1)] 500 initialState).status =
        DetectionStatus.locked ∧
      (runSchedule 9
            [(0, DetectionOutcome.ok box1), (750, DetectionOutcome.ok box1),
              (1500, DetectionOutcome.ok box1)] 2500 initialState).capLog.map Prod.fst =
        [2500] := by
  refine ⟨fun now b s => ?_, rfl, rfl, rfl⟩
  obtain ⟨en, st, res, z, cd, tm, ip, ia, bps, cl, rp, cr, cx, vw, vh⟩ := s
  cases ip <;> cases st <;> simp [analyzeFrameResult]

/-- C2, counterexample: from a locked state with a steadiness timer pending
for `t = 900`, a thrown detection error at `t = 750` drives the state to
`idle` but does not cancel the pending steadiness timer. -/
theorem C2_counterexample :
    (applyDetection 750 DetectionOutcome.error cexLockedSteadyState).status =
        DetectionStatus.idle ∧
      (applyDetection 750 DetectionOutcome.error cexLockedSteadyState).timers =
        [(900, TimerKind.steady)] ∧
      pendingSteady (applyDetection 750 DetectionOutcome.error cexLockedSteadyState) ≠ [] := by
  refine ⟨rfl, rfl, ?_⟩
  decide

/-- C2, amended: a response with no usable box (or a failed response) cancels
any pending steadiness timer and sets the state to `idle` unconditionally; a
thrown error also sets the state to `idle` unconditionally, but it leaves any
pending steadiness timer untouched. -/
theorem C2_no_detection_downgrade (now : ℕ) (s : CoreState) :
    (applyDetection now DetectionOutcome.noBox s).status = DetectionStatus.idle ∧
      pendingSteady (applyDetection now DetectionOutcome.noBox s) = [] ∧
      (applyDetection now DetectionOutcome.error s).status = DetectionStatus.idle ∧
      pendingSteady (applyDetection now DetectionOutcome.error s) = pendingSteady s := by
  obtain ⟨en, st, res, z, cd, tm, ip, ia, bps, cl, rp, cr, cx, vw, vh⟩ := s
  cases en <;> cases ip <;> cases st <;>
    simp [applyDetection, analyzeFrameResult, countdownEffectRerun, countdownEffectBody,
      countdownEffectCleanup, pendingSteady, clearCd_clearSteady, clearCd_idem,
      clearCountdownTimeouts] <;>
    (intro a b hm; simp [clearSteady, List.mem_filter] at hm; exact hm.2)

/-- C3, counterexample: from a tracking state with zoom 3 and a steadiness
timer pending, a thrown error at `t = 750` produces a different state than a
no-box response at the same instant: the timer list differs (the timer
survives the error) and the zoom differs (hard reset to 1 versus a smoothing
step to 13/5). -/
theorem C3_counterexample :
    (applyDetection 750 DetectionOutcome.error cexZoomedState).timers ≠
        (applyDetection 750 DetectionOutcome.noBox cexZoomedState).timers ∧
      (applyDetection 750 DetectionOutcome.error cexZoomedState).zoom = 1 ∧
      (applyDetection 750 DetectionOutcome.noBox cexZoomedState).zoom = 13/5 := by
  refine ⟨by decide, ?_, ?_⟩
  · rw [applyDetection_zoom, analyzeFrameResult_error_zoom]
  · rw [applyDetection_zoom, analyzeFrameResult_noBox_zoom]
    norm_num [cexZoomedState, initialState]

/-- C3, amended: an erroring detection call and a no-box response both drive
the tracking state to `idle`, but the error path differs from the no-box path:
it resets the zoom straight to 1 instead of smoothing it, it keeps the cached
detection result instead of clearing it, and it leaves any pending steadiness
timer instead of cancelling it. -/
theorem C3_error_vs_miss (now : ℕ) (s : CoreState) :
    (applyDetection now DetectionOutcome.error s).status = DetectionStatus.idle ∧
      (applyDetection now DetectionOutcome.noBox s).status = DetectionStatus.idle ∧
      (applyDetection now DetectionOutcome.error s).zoom = 1 ∧
      (applyDetection now DetectionOutcome.noBox s).zoom = s.zoom + (1 - s.zoom) * (1/5) ∧
      (applyDetection now DetectionOutcome.error s).result = s.result ∧
      (applyDetection now DetectionOutcome.noBox s).result = none ∧
      pendingSteady (applyDetection now DetectionOutcome.error s) = pendingSteady s ∧
      pendingSteady (applyDetection now DetectionOutcome.noBox s) = [] := by
  have h3 : (applyDetection now DetectionOutcome.error s).zoom = 1 := by
    rw [applyDetection_zoom, analyzeFrameResult_error_zoom]
  have h4 : (applyDetection now DetectionOutcome.noBox s).zoom =
      s.zoom + (1 - s.zoom) * (1/5) := by
    rw [applyDetection_zoom, analyzeFrameResult_noBox_zoom]
  refine ⟨?_, ?_, h3, h4, ?_, ?_, ?_, ?_⟩ <;>
  · obtain ⟨en, st, res, z, cd, tm, ip, ia, bps, cl, rp, cr, cx, vw, vh⟩ := s
    cases en <;> cases ip <;> cases st <;>
      simp [applyDetection, analyzeFrameResult, countdownEffectRerun, countdownEffectBody,
        countdownEffectCleanup, pendingSteady, clearCd_clearSteady, clearCd_idem,
        clearCountdownTimeouts] <;>
      (intro a b hm; simp [clearSteady, List.mem_filter] at hm; exact hm.2)

/-- C6: at most one detection call is outstanding: a sampling tick that finds
the in-flight flag set returns immediately with no detection call and no state
change, and a tick that starts with the flag clear ends with the flag clear in
every case (dropped for missing refs, missing 2d context, failed, successful
or erroring call). -/
theorem C6_single_flight (now : ℕ) (refsPresent ctxOk : Bool) (r : DetectionOutcome)
    (s : CoreState) :
    (s.isAnalyzing = true → analyzeFrame now refsPresent ctxOk r s = (s, false)) ∧
      (s.isAnalyzing = false → (analyzeFrame now refsPresent ctxOk r s).1.isAnalyzing = false) := by
  constructor
  · intro h
    simp [analyzeFrame, h]
  · intro h
    simp only [analyzeFrame]
    split_ifs <;> simp [h]

/-- C6, witness: a tick on a busy state is dropped unchanged, and a tick on an
idle state ends with the in-flight flag clear. -/
theorem C6_witness :
    analyzeFrame 0 true true DetectionOutcome.noBox
        { initialState with isAnalyzing := true } =
      ({ initialState with isAnalyzing := true }, false) ∧
      (analyzeFrame 0 true true DetectionOutcome.noBox initialState).1.isAnalyzing = false :=
  ⟨(C6_single_flight 0 true true DetectionOutcome.noBox
      { initialState with isAnalyzing := true }).1 rfl,
   (C6_single_flight 0 true true DetectionOutcome.noBox initialState).2 rfl⟩

/-- C7, counterexample: with zoom 3, a thrown detection error resets the zoom
straight to 1; a smoothing step of 0.2 of the remaining distance toward its
target 1 would instead give 13/5, so the update jumps discontinuously. -/
theorem C7_counterexample :
    (applyDetection 0 DetectionOutcome.error cexZoomedState).zoom = 1 ∧
      cexZoomedState.zoom + (1 - cexZoomedState.zoom) * (1/5) = 13/5 ∧
      (1 : ℚ) ≠ 13/5 := by
  refine ⟨?_, ?_, by norm_num⟩
  · rw [applyDetection_zoom, analyzeFrameResult_error_zoom]
  · norm_num [cexZoomedState, initialState]

/-- C7, amended: zoom always stays within `[1, 4]` — for a single update from
any in-range state, and along every sequence of updates from the initial
zoom 1 — and the successful and no-box updates move zoom by exactly 0.2 of the
remaining distance toward their target; the erroring update instead resets
zoom directly to 1. -/
theorem C7_zoom_invariant :
    (∀ (now : ℕ) (r : DetectionOutcome) (s : CoreState), 1 ≤ s.zoom → s.zoom ≤ 4 →
        1 ≤ (applyDetection now r s).zoom ∧ (applyDetection now r s).zoom ≤ 4) ∧
      (∀ evs : List (ℕ × DetectionOutcome),
        1 ≤ (evs.foldl (fun a e => applyDetection e.1 e.2 a) initialState).zoom ∧
          (evs.foldl (fun a e => applyDetection e.1 e.2 a) initialState).zoom ≤ 4) ∧
      (∀ (now : ℕ) (b : Box) (s : CoreState),
        (applyDetection now (DetectionOutcome.ok b) s).zoom - targetZoom (b.xMax - b.xMin) =
          (4/5) * (s.zoom - targetZoom (b.xMax - b.xMin))) ∧
      (∀ (now : ℕ) (s : CoreState),
        (applyDetection now DetectionOutcome.noBox s).zoom - 1 = (4/5) * (s.zoom - 1)) ∧
      (∀ (now : ℕ) (s : CoreState),
        (applyDetection now DetectionOutcome.error s).zoom = 1) := by
  refine ⟨applyDetection_zoom_bounds,
    fun evs => foldl_zoom_bounds evs initialState (by norm_num [initialState])
      (by norm_num [initialState]),
    fun now b s => ?_, fun now s => ?_, fun now s => ?_⟩
  · rw [applyDetection_zoom, analyzeFrameResult_ok_zoom]; ring
  · rw [applyDetection_zoom, analyzeFrameResult_noBox_zoom]; ring
  · rw [applyDetection_zoom, analyzeFrameResult_error_zoom]

/-- C7, witness: one no-box update from the initial state stays in `[1, 4]`. -/
theorem C7_witness :
    1 ≤ (applyDetection 0 DetectionOutcome.noBox initialState).zoom ∧
      (applyDetection 0 DetectionOutcome.noBox initialState).zoom ≤ 4 :=
  C7_zoom_invariant.1 0 DetectionOutcome.noBox initialState
    (by norm_num [initialState]) (by norm_num [initialState])

/-- C8: on a successful detection the target zoom is
`clamp(0.40 / w, 1.0, 4.0)` of the normalized box width `w`; width 0.40 gives
target 1.0, width 0.10 gives target 4.0, and the zoom update moves the current
zoom toward exactly this target. -/
theorem C8_target_zoom :
    (∀ w : ℚ, 0 < w → targetZoom w = max 1 (min (targetBoxWidth / w) 4)) ∧
      targetZoom (2/5) = 1 ∧ targetZoom (1/10) = 4 ∧
      (∀ (now : ℕ) (b : Box) (s : CoreState),
        (applyDetection now (DetectionOutcome.ok b) s).zoom =
          s.zoom + (targetZoom (b.xMax - b.xMin) - s.zoom) * (1/5)) := by
  have h14 : (1 : ℚ) ≤ 4 := by norm_num
  refine ⟨fun w hw => ?_, by norm_num [targetZoom, targetBoxWidth],
    by norm_num [targetZoom, targetBoxWidth],
    fun now b s => by rw [applyDetection_zoom, analyzeFrameResult_ok_zoom]⟩
  unfold targetZoom
  rcases le_total (targetBoxWidth / w) 1 with h | h
  · rw [max_eq_left h, min_eq_left h14, min_eq_left (le_trans h h14), max_eq_left h]
  · rcases le_total (targetBoxWidth / w) 4 with h2 | h2
    · rw [max_eq_right h, min_eq_left h2]
      exact (max_eq_right h).symm
    · rw [max_eq_right h, min_eq_right h2]
      exact (max_eq_right h14).symm

/-- C8, witness: width 0.40 has positive width and yields target zoom 1. -/
theorem C8_witness :
    targetZoom (2/5) = max 1 (min (targetBoxWidth / (2/5)) 4) :=
  C8_target_zoom.1 (2/5) (by norm_num)

/-- C9, counterexample: a portrait 1080 by 1920 frame gets an analysis canvas
of 640 by 10240/9 — the longer edge exceeds 640 px. -/
theorem C9_counterexample :
    analysisCanvas 1080 1920 = (640, 10240/9) ∧
      ¬ max (analysisCanvas 1080 1920).1 (analysisCanvas 1080 1920).2 ≤ 640 := by
  constructor
  · norm_num [analysisCanvas, Prod.ext_iff]
  · norm_num [analysisCanvas]

/-- C9, amended: the analysis canvas always has width 640 and height scaled by
the frame's aspect ratio, so the longer edge is at most 640 px exactly for
landscape frames (width at least height); the JPEG quality is 0.8. -/
theorem C9_landscape (vw vh : ℚ) (hvw : 0 < vw) (h : vh ≤ vw) :
    (analysisCanvas vw vh).1 = 640 ∧
      max (analysisCanvas vw vh).1 (analysisCanvas vw vh).2 ≤ 640 ∧
      analysisJpegQuality = 4/5 := by
  refine ⟨rfl, ?_, rfl⟩
  have hh : vh / vw * 640 ≤ 640 := by
    rw [div_mul_eq_mul_div, div_le_iff₀ hvw]
    nlinarith
  simpa [analysisCanvas] using max_le le_rfl hh

/-- C9, witness: a landscape 1920 by 1080 frame keeps the longer edge at
640 px. -/
theorem C9_witness :
    max (analysisCanvas 1920 1080).1 (analysisCanvas 1920 1080).2 ≤ 640 :=
  (C9_landscape 1920 1080 (by norm_num) (by norm_num)).2.1

/-- C10: whenever the capture handler hands the full-resolution JPEG frame to
the capture-completion callback, the very next effect stops every track of the
live stream; and the countdown's final timeout invokes exactly this capture
handler, so both manual and auto captures end the live preview. -/
theorem C10_capture_stops_stream (rp cr cx : Bool) (vw vh now : ℕ) (s : CoreState)
    (i : ℕ) (q : ℚ) :
    ((handleCapture rp cr cx vw vh)[i]? =
        some (CaptureEffect.callbackInvoked vw vh q) →
      (handleCapture rp cr cx vw vh)[i + 1]? = some CaptureEffect.streamStopped) ∧
      (fireTimer now TimerKind.cd2 s).capLog =
        s.capLog ++
          [(now, handleCapture s.refsPresent s.cameraReady s.ctxOk s.videoW s.videoH)] := by
  refine ⟨?_, rfl⟩
  intro h
  cases rp <;> cases cr <;> cases cx <;>
    rcases i with _ | _ | _ | _ | i <;>
    simp [handleCapture] at h ⊢

/-- C10, witness: in a real capture the effect after the callback is the
stream stop. -/
theorem C10_witness :
    (handleCapture true true true 1920 1080)[3]? = some CaptureEffect.streamStopped :=
  (C10_capture_stops_stream true true true 1920 1080 0 initialState 2 (19/20)).1 rfl

/-- C4: when the steadiness timer promotes a tracking state to `locked` at
`t0` with the feature enabled, no countdown in progress and no other pending
timeout, and nothing interrupts, the countdown shows `2` from `t0` through
`t0 + 999`, `1` from `t0 + 1000` through `t0 + 1999`, and at `t0 + 2000` the
display is cleared, the in-progress guard is cleared and the capture handler
is invoked exactly once, at `t0 + 2000`. -/
theorem C4_countdown (t0 : ℕ) (s : CoreState) (h1 : s.status = DetectionStatus.tracking)
    (h2 : s.enabled = true) (h3 : s.inProgress = false) (h4 : s.timers = []) :
    (fireTimer t0 TimerKind.steady s).status = DetectionStatus.locked ∧
      (fireTimer t0 TimerKind.steady s).countdown = some 2 ∧
      (runTimers 5 (t0 + 999) (fireTimer t0 TimerKind.steady s)).countdown = some 2 ∧
      (runTimers 5 (t0 + 1000) (fireTimer t0 TimerKind.steady s)).countdown = some 1 ∧
      (runTimers 5 (t0 + 1999) (fireTimer t0 TimerKind.steady s)).countdown = some 1 ∧
      (runTimers 5 (t0 + 2000) (fireTimer t0 TimerKind.steady s)).countdown = none ∧
      (runTimers 5 (t0 + 2000) (fireTimer t0 TimerKind.steady s)).inProgress = false ∧
      (runTimers 5 (t0 + 2000) (fireTimer t0 TimerKind.steady s)).capLog =
        s.capLog ++
          [(t0 + 2000,
            handleCapture s.refsPresent s.cameraReady s.ctxOk s.videoW s.videoH)] := by
  rw [fireSteady_start t0 s h1 h2 h3 h4]
  refine ⟨rfl, rfl, ?_, ?_, ?_, ?_, ?_, ?_⟩
  · rw [runTimers_cdPair_before t0 999 _ (by omega) rfl]
  · rw [runTimers_cdPair_mid t0 1000 _ (by omega) (by omega) rfl]; rfl
  · rw [runTimers_cdPair_mid t0 1999 _ (by omega) (by omega) rfl]; rfl
  · rw [runTimers_cdPair_end t0 _ rfl]; rfl
  · rw [runTimers_cdPair_end t0 _ rfl]; rfl
  · rw [runTimers_cdPair_end t0 _ rfl]; rfl

/-- C4, witness: the generic countdown run at `t0 = 0` from a clean tracking
state captures exactly once, at `t = 2000`, with the display cleared. -/
theorem C4_witness :
    (runTimers 5 2000 (fireTimer 0 TimerKind.steady trackingState)).countdown = none ∧
      (runTimers 5 2000 (fireTimer 0 TimerKind.steady trackingState)).capLog =
        [(2000, handleCapture true true true 1920 1080)] := by
  have h := C4_countdown 0 trackingState rfl rfl rfl rfl
  exact ⟨h.2.2.2.2.2.1, h.2.2.2.2.2.2.2⟩

/-- C5: if an in-progress countdown started at `t0` is interrupted at any
`t0 + k` with `k < 2000` — by a detection without usable box, by a thrown
detection error, or by disabling the feature — then no countdown timer
remains pending, the display is `null`, the in-progress guard is cleared, and
the capture handler is never invoked, then or at any later time. -/
theorem C5_countdown_cancel (t0 k : ℕ) (s : CoreState)
    (h1 : s.status = DetectionStatus.tracking) (h2 : s.enabled = true)
    (h3 : s.inProgress = false) (h4 : s.timers = []) (hk : k < 2000) :
    ((applyDetection (t0 + k) DetectionOutcome.noBox
          (runTimers 5 (t0 + k) (fireTimer t0 TimerKind.steady s))).countdown = none ∧
        (applyDetection (t0 + k) DetectionOutcome.noBox
          (runTimers 5 (t0 + k) (fireTimer t0 TimerKind.steady s))).inProgress = false ∧
        (applyDetection (t0 + k) DetectionOutcome.noBox
          (runTimers 5 (t0 + k) (fireTimer t0 TimerKind.steady s))).timers = [] ∧
        ∀ fuel T : ℕ,
          (runTimers fuel T (applyDetection (t0 + k) DetectionOutcome.noBox
            (runTimers 5 (t0 + k) (fireTimer t0 TimerKind.steady s)))).capLog = s.capLog) ∧
      ((applyDetection (t0 + k) DetectionOutcome.error
          (runTimers 5 (t0 + k) (fireTimer t0 TimerKind.steady s))).countdown = none ∧
        (applyDetection (t0 + k) DetectionOutcome.error
          (runTimers 5 (t0 + k) (fireTimer t0 TimerKind.steady s))).inProgress = false ∧
        (applyDetection (t0 + k) DetectionOutcome.error
          (runTimers 5 (t0 + k) (fireTimer t0 TimerKind.steady s))).timers = [] ∧
        ∀ fuel T : ℕ,
          (runTimers fuel T (applyDetection (t0 + k) DetectionOutcome.error
            (runTimers 5 (t0 + k) (fireTimer t0 TimerKind.steady s)))).capLog = s.capLog) ∧
      ((handleToggleAutoCapture (t0 + k)
          (runTimers 5 (t0 + k) (fireTimer t0 TimerKind.steady s))).countdown = none ∧
        (handleToggleAutoCapture (t0 + k)
          (runTimers 5 (t0 + k) (fireTimer t0 TimerKind.steady s))).inProgress = false ∧
        (handleToggleAutoCapture (t0 + k)
          (runTimers 5 (t0 + k) (fireTimer t0 TimerKind.steady s))).timers = [] ∧
        ∀ fuel T : ℕ,
          (runTimers fuel T (handleToggleAutoCapture (t0 + k)
            (runTimers 5 (t0 + k) (fireTimer t0 TimerKind.steady s)))).capLog = s.capLog) := by
  rw [fireSteady_start t0 s h1 h2 h3 h4, h2]
  rcases Nat.lt_or_ge k 1000 with hks | hks
  · rw [runTimers_cdPair_before t0 k _ hks rfl]
    refine ⟨⟨rfl, rfl, rfl, fun fuel T => ?_⟩, ⟨rfl, rfl, rfl, fun fuel T => ?_⟩,
      ⟨rfl, rfl, rfl, fun fuel T => ?_⟩⟩ <;>
    · rw [runTimers_nil fuel T] <;> rfl
  · rw [runTimers_cdPair_mid t0 k _ hks hk rfl]
    refine ⟨⟨rfl, rfl, rfl, fun fuel T => ?_⟩, ⟨rfl, rfl, rfl, fun fuel T => ?_⟩,
      ⟨rfl, rfl, rfl, fun fuel T => ?_⟩⟩ <;>
    · rw [runTimers_nil fuel T] <;> rfl

/-- C5, witness: a no-box detection at `t = 1700` inside the countdown window
of a countdown started at `t0 = 0` leaves no capture at any later time and a
cleared display. -/
theorem C5_witness :
    (applyDetection 1700 DetectionOutcome.noBox
        (runTimers 5 1700 (fireTimer 0 TimerKind.steady trackingState))).countdown = none ∧
      (runTimers 9 99999 (applyDetection 1700 DetectionOutcome.noBox
        (runTimers 5 1700 (fireTimer 0 TimerKind.steady trackingState)))).capLog = [] := by
  have h := C5_countdown_cancel 0 1700 trackingState rfl rfl rfl rfl (by norm_num)
  exact ⟨h.1.1, h.1.2.2.2 9 99999⟩

end SnapEyes
